import Mathlib

/-!
Verification development for `custom_components/pun_sensor/sensor.py`.

The module exposes electricity price data from a data-update coordinator as
sensor entities.  We shallowly embed the entity state and the handful of
methods the specification talks about: coordinator-update handlers, the
restore-state round trip, availability, polling and unit accessors, and the
entity list built by `async_setup_entry`.

Python floats are modelled as rationals (none of the verified properties
involve float rounding), dictionaries keyed by the `Fascia` enum as total
functions out of `Fascia`, and the optional coordinator band as `Option`.
-/

/-- Enum `Fascia` from `interfaces.py` (the time bands).  The constructor
set is taken from the `match self.fascia` statement in `sensor.py`, which
enumerates MONO, F1, F2, F3 and F23. -/
inductive Fascia where
  | MONO
  | F1
  | F2
  | F3
  | F23
  deriving DecidableEq, Repr

/-- Modelled from the spec: the string value carried by each `Fascia` enum
member (`interfaces.py` is not part of the sources; `sensor.py` uses
`fascia.value` as the band's display string, e.g. `Fascia.F1.value`). -/
def Fascia.value : Fascia → String
  | .MONO => "MONO"
  | .F1 => "F1"
  | .F2 => "F2"
  | .F3 => "F3"
  | .F23 => "F23"

/-- Coordinator field `pun_data`: the per-band raw sample lists
(`coordinator.pun_data.pun[fascia]`). -/
structure PunData where
  pun : Fascia → List ℚ

/-- Coordinator field `pun_values`: the per-band computed value mapping
(`coordinator.pun_values.value[fascia]`). -/
structure PunValues where
  value : Fascia → ℚ

/-- The read-only coordinator fields the sensors consume. -/
structure Coordinator where
  pun_data : PunData
  pun_values : PunValues
  fascia_corrente : Option Fascia
  fascia_successiva : Option Fascia

/-- Modelled from the spec: the key set of the `PunValues().value` mapping
iterated by `async_setup_entry` — one entry per band ("a per-band computed
value mapping"). -/
def punValuesKeys : List Fascia :=
  [Fascia.MONO, Fascia.F1, Fascia.F2, Fascia.F3, Fascia.F23]

/-- Python `and` on the two `len(...)` integers in the F23 branch of
`PUNSensorEntity._handle_coordinator_update`: `a and b` returns `a` when
`a` is falsy (zero) and `b` otherwise. -/
def py_and (a b : Nat) : Nat :=
  if a = 0 then a else b

/-- Python truthiness of an optional `Fascia` enum member: `None` is falsy
and every enum member is truthy (default `Enum` semantics). -/
def pyTruthy (o : Option Fascia) : Bool :=
  o.isSome

/-- Mutable state of `PUNSensorEntity`: its band and the `_available` /
`_native_value` attributes set in `__init__` and updated by the handler. -/
structure PUNSensorEntity where
  fascia : Fascia
  _available : Bool
  _native_value : ℚ
  deriving DecidableEq, Repr

/-- Method `PUNSensorEntity._handle_coordinator_update`: for every band but
F23 the sensor is available (with the coordinator's computed value) exactly
when the band's raw sample list is non-empty; for F23 the availability test
is `(len(pun[F2]) and len(pun[F3])) > 0`. -/
def PUNSensorEntity._handle_coordinator_update
    (c : Coordinator) (s : PUNSensorEntity) : PUNSensorEntity :=
  if s.fascia ≠ Fascia.F23 then
    if (c.pun_data.pun s.fascia).length > 0 then
      { s with _available := true, _native_value := c.pun_values.value s.fascia }
    else
      { s with _available := false }
  else if py_and (c.pun_data.pun Fascia.F2).length
      (c.pun_data.pun Fascia.F3).length > 0 then
    { s with _available := true, _native_value := c.pun_values.value s.fascia }
  else
    { s with _available := false }

/-- The dictionary saved by `PUNSensorEntity.extra_restore_state_data`: the
single `"native_value"` entry, `None` when the sensor is unavailable. -/
structure PUNRestoredExtraData where
  native_value : Option ℚ
  deriving DecidableEq, Repr

/-- Property `PUNSensorEntity.extra_restore_state_data`. -/
def PUNSensorEntity.extra_restore_state_data
    (s : PUNSensorEntity) : PUNRestoredExtraData :=
  { native_value := if s._available then some s._native_value else none }

/-- Method `PUNSensorEntity.async_added_to_hass` restricted to its effect on
the entity state: `old_data` is the optional saved dictionary
(`async_get_last_extra_data`); when present and its `"native_value"` entry is
not `None`, the sensor becomes available with the restored value. -/
def PUNSensorEntity.async_added_to_hass
    (old_data : Option PUNRestoredExtraData) (s : PUNSensorEntity) :
    PUNSensorEntity :=
  match old_data with
  | none => s
  | some d =>
    match d.native_value with
    | some v => { s with _available := true, _native_value := v }
    | none => s

/-- Property `PUNSensorEntity.should_poll`. -/
def PUNSensorEntity.should_poll (_s : PUNSensorEntity) : Bool :=
  false

/-- Property `PUNSensorEntity.available`. -/
def PUNSensorEntity.available (s : PUNSensorEntity) : Bool :=
  s._available

/-- Modelled from the spec: the Home Assistant constant `CURRENCY_EURO`
(the euro currency symbol), imported by `sensor.py` from the framework. -/
def CURRENCY_EURO : String := "€"

/-- Modelled from the spec: the Home Assistant constant
`UnitOfEnergy.KILO_WATT_HOUR` (the kilowatt-hour energy unit), imported by
`sensor.py` from the framework. -/
def KILO_WATT_HOUR : String := "kWh"

/-- Property `PUNSensorEntity.native_unit_of_measurement`:
the f-string interpolating the two framework constants. -/
def PUNSensorEntity.native_unit_of_measurement (_s : PUNSensorEntity) : String :=
  CURRENCY_EURO ++ "/" ++ KILO_WATT_HOUR

/-- Property `FasciaPUNSensorEntity.available`:
`self.coordinator.fascia_corrente is not None`. -/
def FasciaPUNSensorEntity.available (c : Coordinator) : Bool :=
  decide (c.fascia_corrente ≠ none)

/-- Property `FasciaPUNSensorEntity.native_value`: `None` when
`fascia_corrente` is falsy, its enum string value otherwise. -/
def FasciaPUNSensorEntity.native_value (c : Coordinator) : Option String :=
  if pyTruthy c.fascia_corrente = false then
    none
  else
    match c.fascia_corrente with
    | some f => some f.value
    | none => none

/-- Property `FasciaPUNSensorEntity.should_poll`. -/
def FasciaPUNSensorEntity.should_poll (_c : Coordinator) : Bool :=
  false

/-- Mutable state of `PrezzoFasciaPUNSensorEntity`: the `_available`,
`_native_value` and `_friendly_name` attributes. -/
structure PrezzoFasciaPUNSensorEntity where
  _available : Bool
  _native_value : ℚ
  _friendly_name : String
  deriving DecidableEq, Repr

/-- Method `PrezzoFasciaPUNSensorEntity._handle_coordinator_update`: when a
current band is set, availability tracks that band's raw sample list, the
value is the band's computed value and the name carries the band; otherwise
the sensor resets to unavailable, value 0 and the default name. -/
def PrezzoFasciaPUNSensorEntity._handle_coordinator_update
    (c : Coordinator) (s : PrezzoFasciaPUNSensorEntity) :
    PrezzoFasciaPUNSensorEntity :=
  match c.fascia_corrente with
  | some f =>
    { s with
      _available := decide ((c.pun_data.pun f).length > 0)
      _native_value := c.pun_values.value f
      _friendly_name := "Prezzo fascia corrente (" ++ f.value ++ ")" }
  | none =>
    { s with
      _available := false
      _native_value := 0
      _friendly_name := "Prezzo fascia corrente" }

/-- The dictionary saved by
`PrezzoFasciaPUNSensorEntity.extra_restore_state_data`: the `"native_value"`
and `"friendly_name"` entries, both `None` when the sensor is unavailable. -/
structure PrezzoRestoredExtraData where
  native_value : Option ℚ
  friendly_name : Option String
  deriving DecidableEq, Repr

/-- Property `PrezzoFasciaPUNSensorEntity.extra_restore_state_data`. -/
def PrezzoFasciaPUNSensorEntity.extra_restore_state_data
    (s : PrezzoFasciaPUNSensorEntity) : PrezzoRestoredExtraData :=
  { native_value := if s._available then some s._native_value else none
    friendly_name := if s._available then some s._friendly_name else none }

/-- Method `PrezzoFasciaPUNSensorEntity.async_added_to_hass` restricted to
its effect on the entity state: restores the value (and availability) and
the friendly name from whichever saved entries are not `None`. -/
def PrezzoFasciaPUNSensorEntity.async_added_to_hass
    (old_data : Option PrezzoRestoredExtraData)
    (s : PrezzoFasciaPUNSensorEntity) : PrezzoFasciaPUNSensorEntity :=
  match old_data with
  | none => s
  | some d =>
    let s1 :=
      match d.native_value with
      | some v => { s with _available := true, _native_value := v }
      | none => s
    match d.friendly_name with
    | some n => { s1 with _friendly_name := n }
    | none => s1

/-- Property `PrezzoFasciaPUNSensorEntity.should_poll`. -/
def PrezzoFasciaPUNSensorEntity.should_poll
    (_s : PrezzoFasciaPUNSensorEntity) : Bool :=
  false

/-- Property `PrezzoFasciaPUNSensorEntity.available`. -/
def PrezzoFasciaPUNSensorEntity.available
    (s : PrezzoFasciaPUNSensorEntity) : Bool :=
  s._available

/-- Property `PrezzoFasciaPUNSensorEntity.native_unit_of_measurement`. -/
def PrezzoFasciaPUNSensorEntity.native_unit_of_measurement
    (_s : PrezzoFasciaPUNSensorEntity) : String :=
  CURRENCY_EURO ++ "/" ++ KILO_WATT_HOUR

/-- The kind of each sensor entity created by `async_setup_entry`. -/
inductive EntityKind where
  | punSensor (fascia : Fascia)
  | fasciaSensor
  | prezzoFasciaSensor
  deriving DecidableEq, Repr

/-- An entity as registered by `async_setup_entry`: its kind and the
coordinator it is bound to. -/
structure EntityDescr where
  kind : EntityKind
  coordinator : Coordinator

/-- The data passed to `async_add_entities`. -/
structure SetupResult where
  entities : List EntityDescr
  update_before_add : Bool

/-- Function `async_setup_entry`: one `PUNSensorEntity` per key of
`PunValues().value`, then one `FasciaPUNSensorEntity` and one
`PrezzoFasciaPUNSensorEntity`, all bound to the entry's coordinator, added
with `update_before_add=False`. -/
def async_setup_entry (c : Coordinator) : SetupResult :=
  { entities :=
      punValuesKeys.map (fun f => { kind := EntityKind.punSensor f, coordinator := c })
        ++ [{ kind := EntityKind.fasciaSensor, coordinator := c },
            { kind := EntityKind.prezzoFasciaSensor, coordinator := c }]
    update_before_add := false }

/-! ### Concrete instances used by witness theorems -/

/-- A coordinator in which every band has one raw sample. -/
def cFull : Coordinator :=
  { pun_data := ⟨fun _ => [1]⟩
    pun_values := ⟨fun _ => 42⟩
    fascia_corrente := some Fascia.F1
    fascia_successiva := none }

/-- A coordinator in which every band's raw sample list is empty and no
current band is set. -/
def cEmpty : Coordinator :=
  { pun_data := ⟨fun _ => []⟩
    pun_values := ⟨fun _ => 42⟩
    fascia_corrente := none
    fascia_successiva := none }

/-- A fresh F1 price sensor, as after `__init__`. -/
def sF1 : PUNSensorEntity := ⟨Fascia.F1, false, 0⟩

/-- A fresh F23 price sensor, as after `__init__`. -/
def sF23 : PUNSensorEntity := ⟨Fascia.F23, false, 0⟩

/-- A fresh current-band price sensor, as after `__init__`. -/
def sPrezzo : PrezzoFasciaPUNSensorEntity := ⟨false, 0, "Prezzo fascia corrente"⟩

/-! ### Claims -/

/-- Positivity of Python `and` of two lengths. -/
theorem py_and_pos (a b : Nat) : 0 < py_and a b ↔ 0 < a ∧ 0 < b := by
  unfold py_and
  by_cases h : a = 0 <;> simp [h, Nat.pos_iff_ne_zero]

/-- C1: for every fascia other than F23, `_handle_coordinator_update` makes
the sensor available exactly when the band's raw sample list is non-empty,
and in that case stores the coordinator's computed value for the band. -/
theorem C1_pun_sensor_update (c : Coordinator) (s : PUNSensorEntity)
    (h : s.fascia ≠ Fascia.F23) :
    ((PUNSensorEntity._handle_coordinator_update c s)._available
        = decide (0 < (c.pun_data.pun s.fascia).length))
      ∧ (0 < (c.pun_data.pun s.fascia).length →
        (PUNSensorEntity._handle_coordinator_update c s)._native_value
          = c.pun_values.value s.fascia) := by
  unfold PUNSensorEntity._handle_coordinator_update
  by_cases hl : 0 < (c.pun_data.pun s.fascia).length <;> simp [h, hl]

/-- Witness for C1 at the fresh F1 sensor and a coordinator with data. -/
theorem C1_pun_sensor_update_witness :
    ((PUNSensorEntity._handle_coordinator_update cFull sF1)._available = true)
      ∧ ((PUNSensorEntity._handle_coordinator_update cFull sF1)._native_value
          = 42) := by
  have h := C1_pun_sensor_update cFull sF1 (by decide)
  refine ⟨?_, ?_⟩
  · rw [h.1]; rfl
  · rw [h.2 (by decide)]; rfl

/-- C2: when a current band is set, the current-band price sensor stores the
coordinator's computed value for that band and is available exactly when the
band's raw sample list is non-empty. -/
theorem C2_prezzo_fascia_update (c : Coordinator)
    (s : PrezzoFasciaPUNSensorEntity) (f : Fascia)
    (h : c.fascia_corrente = some f) :
    ((PrezzoFasciaPUNSensorEntity._handle_coordinator_update c s)._native_value
        = c.pun_values.value f)
      ∧ ((PrezzoFasciaPUNSensorEntity._handle_coordinator_update c s)._available
          = true ↔ 0 < (c.pun_data.pun f).length) := by
  unfold PrezzoFasciaPUNSensorEntity._handle_coordinator_update
  rw [h]
  simp

/-- Witness for C2 at the fresh sensor and a coordinator whose current band
is F1 with data. -/
theorem C2_prezzo_fascia_update_witness :
    ((PrezzoFasciaPUNSensorEntity._handle_coordinator_update cFull sPrezzo)._native_value
        = 42)
      ∧ ((PrezzoFasciaPUNSensorEntity._handle_coordinator_update cFull sPrezzo)._available
          = true) := by
  have h := C2_prezzo_fascia_update cFull sPrezzo Fascia.F1 rfl
  refine ⟨by rw [h.1]; rfl, h.2.mpr (by decide)⟩

/-- C3: for the F23 sensor the update makes it available exactly when both
the F2 and the F3 raw sample lists are non-empty, and the Python expression
`(len(F2) and len(F3)) > 0` agrees with that conjunction for all lengths. -/
theorem C3_f23_availability (c : Coordinator) (s : PUNSensorEntity)
    (h : s.fascia = Fascia.F23) :
    ((PUNSensorEntity._handle_coordinator_update c s)._available = true
        ↔ 0 < (c.pun_data.pun Fascia.F2).length
          ∧ 0 < (c.pun_data.pun Fascia.F3).length)
      ∧ (∀ a b : Nat, 0 < py_and a b ↔ 0 < a ∧ 0 < b) := by
  refine ⟨?_, py_and_pos⟩
  unfold PUNSensorEntity._handle_coordinator_update
  rw [h]
  by_cases h2 : 0 < (c.pun_data.pun Fascia.F2).length <;>
    by_cases h3 : 0 < (c.pun_data.pun Fascia.F3).length <;>
      simp [py_and_pos, h2, h3]

/-- Witness for C3 at the fresh F23 sensor with data in every band. -/
theorem C3_f23_availability_witness :
    ((PUNSensorEntity._handle_coordinator_update cFull sF23)._available = true)
      ∧ (0 < py_and 2 3 ↔ 0 < 2 ∧ 0 < 3) := by
  have h := C3_f23_availability cFull sF23 rfl
  exact ⟨h.1.mpr (by decide), h.2 2 3⟩

/-- C4: restore round trip.  Replaying the saved extra data of a sensor onto
any target state makes the target available with the saved value (and, for
the current-band sensor, the saved friendly name) when the source was
available; the saved `native_value` entry is `None` exactly when the source
was unavailable, and replaying it (or no saved data at all) leaves the
target unchanged. -/
theorem C4_restore_round_trip (s t : PUNSensorEntity)
    (p q : PrezzoFasciaPUNSensorEntity) :
    ((PUNSensorEntity.async_added_to_hass
        (some s.extra_restore_state_data) t)._available
      = (s._available || t._available))
  ∧ ((PUNSensorEntity.async_added_to_hass
        (some s.extra_restore_state_data) t)._native_value
      = if s._available then s._native_value else t._native_value)
  ∧ (s.extra_restore_state_data.native_value = none ↔ s._available = false)
  ∧ (PUNSensorEntity.async_added_to_hass none t = t)
  ∧ ((PrezzoFasciaPUNSensorEntity.async_added_to_hass
        (some p.extra_restore_state_data) q)._available
      = (p._available || q._available))
  ∧ ((PrezzoFasciaPUNSensorEntity.async_added_to_hass
        (some p.extra_restore_state_data) q)._native_value
      = if p._available then p._native_value else q._native_value)
  ∧ ((PrezzoFasciaPUNSensorEntity.async_added_to_hass
        (some p.extra_restore_state_data) q)._friendly_name
      = if p._available then p._friendly_name else q._friendly_name)
  ∧ (p.extra_restore_state_data.native_value = none ↔ p._available = false)
  ∧ (PrezzoFasciaPUNSensorEntity.async_added_to_hass none q = q) := by
  cases hs : s._available <;> cases hp : p._available <;>
    simp [PUNSensorEntity.async_added_to_hass,
      PUNSensorEntity.extra_restore_state_data,
      PrezzoFasciaPUNSensorEntity.async_added_to_hass,
      PrezzoFasciaPUNSensorEntity.extra_restore_state_data, hs, hp]

/-- C5: the current-band name sensor is available exactly when the
coordinator has a current band, and its state is that band's enum string
value (`None` otherwise). -/
theorem C5_fascia_sensor (c : Coordinator) :
    (FasciaPUNSensorEntity.available c = c.fascia_corrente.isSome)
      ∧ (FasciaPUNSensorEntity.native_value c
          = c.fascia_corrente.map Fascia.value) := by
  cases h : c.fascia_corrente <;>
    simp [FasciaPUNSensorEntity.available, FasciaPUNSensorEntity.native_value,
      pyTruthy, h]

/-- C6: none of the three entity classes polls, in every state. -/
theorem C6_never_polls (s : PUNSensorEntity) (c : Coordinator)
    (p : PrezzoFasciaPUNSensorEntity) :
    s.should_poll = false ∧ FasciaPUNSensorEntity.should_poll c = false
      ∧ p.should_poll = false :=
  ⟨rfl, rfl, rfl⟩

/-- C7: both price sensors report the constant unit string "€/kWh" in every
state. -/
theorem C7_unit_of_measurement (s : PUNSensorEntity)
    (p : PrezzoFasciaPUNSensorEntity) :
    s.native_unit_of_measurement = "€/kWh"
      ∧ p.native_unit_of_measurement = "€/kWh" :=
  ⟨rfl, rfl⟩

/-- C8: whenever a `PUNSensorEntity` coordinator update takes an unavailable
branch, the stored native value is left unchanged. -/
theorem C8_retains_value_when_unavailable (c : Coordinator)
    (s : PUNSensorEntity)
    (h : (PUNSensorEntity._handle_coordinator_update c s)._available = false) :
    (PUNSensorEntity._handle_coordinator_update c s)._native_value
      = s._native_value := by
  unfold PUNSensorEntity._handle_coordinator_update at h ⊢
  by_cases hf : s.fascia ≠ Fascia.F23 <;>
    [by_cases hl : 0 < (c.pun_data.pun s.fascia).length;
     by_cases hl : 0 < py_and (c.pun_data.pun Fascia.F2).length
        (c.pun_data.pun Fascia.F3).length] <;>
    simp [hf, hl] at h ⊢

/-- Witness for C8 at the fresh F1 sensor and the coordinator with no
data. -/
theorem C8_retains_value_when_unavailable_witness :
    ((PUNSensorEntity._handle_coordinator_update cEmpty sF1)._available = false)
      ∧ ((PUNSensorEntity._handle_coordinator_update cEmpty sF1)._native_value
          = sF1._native_value) :=
  ⟨by decide, C8_retains_value_when_unavailable cEmpty sF1 (by decide)⟩

/-- C9: with no current band, the current-band price sensor resets to
unavailable, value 0 and the default name. -/
theorem C9_prezzo_reset (c : Coordinator) (s : PrezzoFasciaPUNSensorEntity)
    (h : c.fascia_corrente = none) :
    PrezzoFasciaPUNSensorEntity._handle_coordinator_update c s
      = ⟨false, 0, "Prezzo fascia corrente"⟩ := by
  unfold PrezzoFasciaPUNSensorEntity._handle_coordinator_update
  rw [h]

/-- Witness for C9 at a sensor holding a previous value. -/
theorem C9_prezzo_reset_witness :
    PrezzoFasciaPUNSensorEntity._handle_coordinator_update cEmpty
        ⟨true, 7, "Prezzo fascia corrente (F1)"⟩
      = ⟨false, 0, "Prezzo fascia corrente"⟩ :=
  C9_prezzo_reset cEmpty ⟨true, 7, "Prezzo fascia corrente (F1)"⟩ rfl

/-- C10: setup registers exactly one price sensor per key of the computed
value mapping plus one band sensor and one current-band price sensor, all
bound to the given coordinator, with `update_before_add = false`. -/
theorem C10_setup_entities (c : Coordinator) :
    ((async_setup_entry c).entities.map EntityDescr.kind
        = punValuesKeys.map EntityKind.punSensor
            ++ [EntityKind.fasciaSensor, EntityKind.prezzoFasciaSensor])
  ∧ (∀ f : Fascia,
      ((async_setup_entry c).entities.map EntityDescr.kind).count
          (EntityKind.punSensor f) = 1)
  ∧ (((async_setup_entry c).entities.map EntityDescr.kind).count
        EntityKind.fasciaSensor = 1)
  ∧ (((async_setup_entry c).entities.map EntityDescr.kind).count
        EntityKind.prezzoFasciaSensor = 1)
  ∧ ((async_setup_entry c).entities.map EntityDescr.coordinator
        = List.replicate (async_setup_entry c).entities.length c)
  ∧ ((async_setup_entry c).update_before_add = false) := by
  refine ⟨rfl, ?_, rfl, rfl, rfl, rfl⟩
  intro f
  cases f <;> rfl
